import Mathlib

/-!
Verification of the wsChats live chat relay service.

The repository contains two revisions of the service concatenated in one
source file.  Revision v1 (the first part of the file) stores one chat
document per chat identifier with an embedded message list, checks the
persisted status during the handshake, and broadcasts per chat.  Revision
v2 (the second part) stores one flat document per message, keeps a
separate administrator audience, performs no status check during the
handshake, and broadcasts every message to every participant connection
plus every administrator connection.

Connections are modelled by natural numbers; the success or failure of a
socket write to a connection is modelled by a function from connections
to booleans.  Wall-clock times are natural numbers.  The Mongo collection
of revision v1 is a list of chat documents; updates touch the first
document matching the filter, exactly as UpdateOne does.
-/

set_option autoImplicit false

namespace WsChats

/-- Revision v1 message record: sender tag, body and the server-assigned
timestamp (modelled as a natural number). -/
structure ChatMessage where
  sender : String
  message : String
  timestamp : Nat
deriving Repr, DecidableEq

/-- Revision v1 chat document.  The lastMessage and lastMessageTime fields
are absent (none) until the first saveMessage writes them. -/
structure Chat where
  chatId : String
  userEmail : String
  messages : List ChatMessage
  lastMessage : Option ChatMessage
  lastMessageTime : Option Nat
  status : String
deriving Repr, DecidableEq

/-- The chats collection of revision v1: a list of chat documents. -/
abbrev Store := List Chat

/-- FindOne with filter on the chatId field: first matching document. -/
def findOneChat : Store → String → Option Chat
  | [], _ => none
  | c :: rest, cid => if c.chatId = cid then some c else findOneChat rest cid

/-- UpdateOne with filter on the chatId field: apply the update to the
first matching document, leave everything else untouched; no match means
no change. -/
def updateFirst (f : Chat → Chat) : Store → String → Store
  | [], _ => []
  | c :: rest, cid => if c.chatId = cid then f c :: rest else c :: updateFirst f rest cid

/-- The document inserted by the handshake upsert when no chat with the
identifier exists: setOnInsert gives userEmail, an empty message list and
status active; the chatId comes from the filter. -/
def newChatDoc (cid email : String) : Chat :=
  { chatId := cid
    userEmail := email
    messages := []
    lastMessage := none
    lastMessageTime := none
    status := "active" }

/-- The handshake upsert (UpdateOne, upsert true, setOnInsert only): if a
document with the identifier exists the update is a no-op, otherwise a
fresh active document is inserted. -/
def ensureChat (store : Store) (cid email : String) : Store :=
  match findOneChat store cid with
  | some _ => store
  | none => store ++ [newChatDoc cid email]

/-- The per-document effect of saveMessage: push the message onto the
messages array and set the lastMessage / lastMessageTime cache fields. -/
def pushMessage (msg : ChatMessage) (c : Chat) : Chat :=
  { c with
    messages := c.messages ++ [msg]
    lastMessage := some msg
    lastMessageTime := some msg.timestamp }

/-- saveMessage of revision v1: UpdateOne with upsert true; push the
message and set the cache fields on the first matching document, or
insert a fresh document (setOnInsert gives status active) when no chat
with the identifier exists.  No status check anywhere. -/
def saveMessage (store : Store) (cid : String) (msg : ChatMessage) : Store :=
  match findOneChat store cid with
  | some _ => updateFirst (pushMessage msg) store cid
  | none =>
      store ++ [{ chatId := cid
                  userEmail := ""
                  messages := [msg]
                  lastMessage := some msg
                  lastMessageTime := some msg.timestamp
                  status := "active" }]

/-- The per-document effect of closeChat: set status to ended. -/
def setEnded (c : Chat) : Chat := { c with status := "ended" }

/-- The store mutation of closeChat in revision v1: UpdateOne (no upsert)
setting status to ended on the first matching document; closing a
nonexistent chat changes nothing and reports no error. -/
def closeChatStore (store : Store) (cid : String) : Store :=
  updateFirst setEnded store cid

/-- A live websocket connection. -/
abbrev Conn := Nat

/-- The clients map of revision v1: each live connection together with the
chat identifier it is bound to.  A Go map never holds a key twice, so the
registries we reason about have pairwise distinct connections. -/
abbrev Registry := List (Conn × String)

/-- The connections currently registered under a chat identifier. -/
def matching : Registry → String → List Conn
  | [], _ => []
  | (conn, id) :: rest, cid =>
      if id = cid then conn :: matching rest cid else matching rest cid

/-- The fan-out loop of broadcastMessage in revision v1: walk the clients
map, write the message to every connection bound to the chat; a failed
write closes that connection and deletes it from the map.  Returns the
connections written to successfully and the surviving registry. -/
def broadcastLoop (ok : Conn → Bool) : Registry → String → List Conn × Registry
  | [], _ => ([], [])
  | (conn, id) :: rest, cid =>
      let r := broadcastLoop ok rest cid
      if id = cid then
        if ok conn then (conn :: r.1, (conn, id) :: r.2) else (r.1, r.2)
      else (r.1, (conn, id) :: r.2)

/-- Outcome of a revision v1 broadcast: the message written, the
connections that received it, and the registry after pruning dead
connections. -/
structure BroadcastResult where
  payload : ChatMessage
  delivered : List Conn
  registry : Registry
deriving Repr, DecidableEq

/-- broadcastMessage of revision v1: deliver the message to every
connection registered under the chat identifier, pruning connections
whose write fails. -/
def broadcastMessage (ok : Conn → Bool) (reg : Registry) (cid : String)
    (msg : ChatMessage) : BroadcastResult :=
  let r := broadcastLoop ok reg cid
  { payload := msg, delivered := r.1, registry := r.2 }

/-- The status the v1 handshake sees: the status field of the stored chat
document, or the empty string when no document exists (the Go struct zero
value left by ErrNoDocuments). -/
def lookupStatus (store : Store) (cid : String) : String :=
  match findOneChat store cid with
  | some c => c.status
  | none => ""

/-- The single terminal notice sent when a handshake targets an ended chat. -/
def closedNotice (now : Nat) : ChatMessage :=
  { sender := "System"
    message := "This chat has been closed by the admin."
    timestamp := now }

/-- The confirmation notice sent after a successful v1 handshake. -/
def startedNotice (now : Nat) : ChatMessage :=
  { sender := "System", message := "Chat session started.", timestamp := now }

/-- Outcome of a revision v1 handshake: the store and registry after the
handshake, whether the connection was registered, the system notices
written to the socket, and whether the handler returned at once (which
closes the socket via the deferred Close). -/
structure HandshakeOutcome where
  store : Store
  registry : Registry
  registered : Bool
  notices : List ChatMessage
  connClosed : Bool
deriving Repr, DecidableEq

/-- The handshake of revision v1: resolve the chat identifier (a fresh
uuid when the request leaves it empty), read the persisted status, reject
with a single terminal notice when the chat is ended, otherwise run the
conditional create, register the connection and confirm. -/
def handleHandshake (store : Store) (reg : Registry) (conn : Conn)
    (requestedCid fresh email : String) (now : Nat) : HandshakeOutcome :=
  let cid := if requestedCid = "" then fresh else requestedCid
  if lookupStatus store cid = "ended" then
    { store := store
      registry := reg
      registered := false
      notices := [closedNotice now]
      connClosed := true }
  else
    { store := ensureChat store cid email
      registry := reg ++ [(conn, cid)]
      registered := true
      notices := [startedNotice now]
      connClosed := false }

/-- Outcome of handling one inbound message in revision v1. -/
structure InboundOutcome where
  store : Store
  sent : ChatMessage
  delivered : List Conn
  registry : Registry
deriving Repr, DecidableEq

/-- One iteration of the v1 read loop on a bound connection: overwrite the
timestamp with the server clock, save the message (a persistence failure
is logged and swallowed, leaving the store unchanged), then broadcast it.
persistOk models whether the store write succeeds. -/
def handleInbound (ok : Conn → Bool) (persistOk : Bool) (store : Store)
    (reg : Registry) (cid : String) (now : Nat) (msg : ChatMessage) : InboundOutcome :=
  let stamped := { msg with timestamp := now }
  let store2 := if persistOk then saveMessage store cid stamped else store
  let b := broadcastLoop ok reg cid
  { store := store2
    sent := stamped
    delivered := b.1
    registry := b.2 }

/-- HTTP-level outcome of closeChat. -/
inductive CloseResponse where
  | ok
  | badRequest
deriving Repr, DecidableEq

/-- Outcome of the v1 closeChat handler: the HTTP response, the store and
registry after the call, the closure notice broadcast (none when the
request is rejected), and the connections that received it. -/
structure CloseOutcome where
  response : CloseResponse
  store : Store
  notice : Option ChatMessage
  delivered : List Conn
  registry : Registry
deriving Repr, DecidableEq

/-- The closure notice broadcast by the v1 closeChat handler. -/
def closeNotice (now : Nat) : ChatMessage :=
  { sender := "System"
    message := "This chat has been closed by the admin. Please refresh the Page"
    timestamp := now }

/-- The purge loop at the end of v1 closeChat: close and delete every
connection bound to the chat identifier. -/
def purge : Registry → String → Registry
  | [], _ => []
  | (conn, id) :: rest, cid =>
      if id = cid then purge rest cid else (conn, id) :: purge rest cid

/-- closeChat of revision v1: reject an empty identifier, set status to
ended on the stored document, broadcast the closure notice to the chat
(pruning dead connections), then purge every connection bound to the
chat from the registry. -/
def closeChat (ok : Conn → Bool) (store : Store) (reg : Registry)
    (cid : String) (now : Nat) : CloseOutcome :=
  if cid = "" then
    { response := .badRequest
      store := store
      notice := none
      delivered := []
      registry := reg }
  else
    let b := broadcastLoop ok reg cid
    { response := .ok
      store := closeChatStore store cid
      notice := some (closeNotice now)
      delivered := b.1
      registry := purge b.2 cid }

/-- HTTP-level result of the v1 history endpoint. -/
inductive HistoryResult where
  | ok : List ChatMessage → HistoryResult
  | badRequest
  | dbError
deriving Repr, DecidableEq

/-- Whether a history result is a successful message listing. -/
def isOkResult : HistoryResult → Bool
  | .ok _ => true
  | _ => false

/-- getChatHistory of revision v1: FindOne on the chat identifier and
return the embedded message list; when no document exists FindOne reports
ErrNoDocuments and the handler answers with the database-error response. -/
def getChatHistory (store : Store) (cid : String) : HistoryResult :=
  if cid = "" then .badRequest
  else
    match findOneChat store cid with
    | some c => .ok c.messages
    | none => .dbError

namespace V2

/-- Revision v2 document: one flat record per message, keyed by the chat
identifier.  The status field exists only on documents mutated by the v2
closeChat update, so it is optional. -/
structure MessageDoc where
  chatId : String
  sender : String
  message : String
  timestamp : Nat
  status : Option String
deriving Repr, DecidableEq

/-- The chats collection of revision v2: a list of message documents. -/
abbrev Store := List MessageDoc

/-- The two connection maps of revision v2: participant connections with
their chat identifier, and the administrator audience. -/
structure Registry where
  clients : List (Conn × String)
  adminClients : List Conn
deriving Repr, DecidableEq

/-- The handshake of revision v2: no store lookup and no status check at
all; a sender tagged Admin joins the administrator audience, anyone else
is registered under the chat identifier of the initial payload. -/
def handleHandshake (reg : Registry) (conn : Conn) (sender cid : String) : Registry :=
  if sender = "Admin" then { reg with adminClients := reg.adminClients ++ [conn] }
  else { reg with clients := reg.clients ++ [(conn, cid)] }

/-- The first fan-out loop of the v2 broadcast: write to every participant
connection regardless of its chat identifier, pruning failed writes. -/
def broadcastClients (ok : Conn → Bool) :
    List (Conn × String) → List Conn × List (Conn × String)
  | [] => ([], [])
  | (conn, id) :: rest =>
      let r := broadcastClients ok rest
      if ok conn then (conn :: r.1, (conn, id) :: r.2) else (r.1, r.2)

/-- The second fan-out loop of the v2 broadcast: write to every
administrator connection, pruning failed writes. -/
def broadcastConns (ok : Conn → Bool) : List Conn → List Conn × List Conn
  | [] => ([], [])
  | conn :: rest =>
      let r := broadcastConns ok rest
      if ok conn then (conn :: r.1, conn :: r.2) else (r.1, r.2)

/-- Outcome of a revision v2 broadcast. -/
structure BroadcastResult where
  payload : MessageDoc
  delivered : List Conn
  registry : Registry
deriving Repr, DecidableEq

/-- broadcastMessage of revision v2: deliver the message to every
participant connection (whatever chat it is bound to) and then to every
administrator connection; failed writes prune the connection. -/
def broadcastMessage (ok : Conn → Bool) (reg : Registry) (msg : MessageDoc) :
    BroadcastResult :=
  let c := broadcastClients ok reg.clients
  let a := broadcastConns ok reg.adminClients
  { payload := msg
    delivered := c.1 ++ a.1
    registry := { clients := c.2, adminClients := a.2 } }

/-- The per-document effect of the v2 closeChat update: set the status
field to closed. -/
def setClosed (d : MessageDoc) : MessageDoc := { d with status := some "closed" }

/-- UpdateOne on the v2 collection: apply the update to the first document
matching the chatId filter. -/
def updateFirstDoc (f : MessageDoc → MessageDoc) : Store → String → Store
  | [], _ => []
  | d :: rest, cid =>
      if d.chatId = cid then f d :: rest else d :: updateFirstDoc f rest cid

/-- The store mutation of v2 closeChat: set status closed on the first
document matching the chat identifier. -/
def closeChatStore (store : Store) (cid : String) : Store :=
  updateFirstDoc setClosed store cid

/-- The persisted status of a chat in revision v2: the status field of the
first document carrying the chat identifier. -/
def lookupStatus : Store → String → Option String
  | [], _ => none
  | d :: rest, cid => if d.chatId = cid then d.status else lookupStatus rest cid

/-- The documents the v2 history endpoint collects: every message document
carrying the chat identifier, in stored order. -/
def messagesFor : Store → String → List MessageDoc
  | [], _ => []
  | d :: rest, cid =>
      if d.chatId = cid then d :: messagesFor rest cid else messagesFor rest cid

/-- The initial system message the v2 history endpoint synthesizes for a
chat with no stored messages. -/
def historySystemMessage (cid : String) (now : Nat) : MessageDoc :=
  { chatId := cid
    sender := "System"
    message := "A new chat session has been started. Please wait for an admin."
    timestamp := now
    status := none }

/-- HTTP-level result of the v2 history endpoint. -/
inductive HistoryResult where
  | ok : List MessageDoc → HistoryResult
  | badRequest
  | dbError
deriving Repr, DecidableEq

/-- Outcome of the v2 history endpoint: the response and the store after
the call (the synthesized system message is inserted into the store). -/
structure HistoryOutcome where
  result : HistoryResult
  store : Store
deriving Repr, DecidableEq

/-- getChatHistory of revision v2: collect the chat's message documents in
stored order; when there are none, synthesize an initial system message,
insert it into the store and return it instead of an error. -/
def getChatHistory (store : Store) (cid : String) (now : Nat) : HistoryOutcome :=
  if cid = "" then { result := .badRequest, store := store }
  else
    match messagesFor store cid with
    | [] =>
        { result := .ok [historySystemMessage cid now]
          store := store ++ [historySystemMessage cid now] }
    | msgs => { result := .ok msgs, store := store }

end V2

/-! ### Lemmas about the v1 registry and broadcast loop -/

theorem matching_mem (reg : Registry) (cid : String) (a : Conn) :
    a ∈ matching reg cid ↔ (a, cid) ∈ reg := by
  induction reg with
  | nil => simp [matching]
  | cons q rest ih =>
    obtain ⟨conn, id⟩ := q
    by_cases h : id = cid
    · subst h
      simp [matching, ih, Prod.mk.injEq]
    · simp [matching, h, ih, Prod.mk.injEq]
      intro _
      exact fun he => absurd he.symm h

theorem broadcastLoop_delivered (ok : Conn → Bool) (reg : Registry) (cid : String) :
    (broadcastLoop ok reg cid).1 = (matching reg cid).filter ok := by
  induction reg with
  | nil => rfl
  | cons q rest ih =>
    obtain ⟨conn, id⟩ := q
    by_cases h : id = cid
    · by_cases hok : ok conn
      · simp [broadcastLoop, matching, h, hok, List.filter_cons, ih]
      · simp [broadcastLoop, matching, h, hok, List.filter_cons, ih]
    · simp [broadcastLoop, matching, h, ih]

theorem broadcastLoop_registry (ok : Conn → Bool) (reg : Registry) (cid : String) :
    (broadcastLoop ok reg cid).2
      = reg.filter (fun p => !(decide (p.2 = cid)) || ok p.1) := by
  induction reg with
  | nil => rfl
  | cons q rest ih =>
    obtain ⟨conn, id⟩ := q
    by_cases h : id = cid
    · by_cases hok : ok conn
      · simp [broadcastLoop, h, hok, List.filter_cons, ih]
      · simp [broadcastLoop, h, hok, List.filter_cons, ih]
    · simp [broadcastLoop, h, List.filter_cons, ih]

theorem purge_eq_filter (reg : Registry) (cid : String) :
    purge reg cid = reg.filter (fun p => !(decide (p.2 = cid))) := by
  induction reg with
  | nil => rfl
  | cons q rest ih =>
    obtain ⟨conn, id⟩ := q
    by_cases h : id = cid
    · simp [purge, h, List.filter_cons, ih]
    · simp [purge, h, List.filter_cons, ih]

theorem broadcastLoop_of_no_match (ok : Conn → Bool) (reg : Registry) (cid : String)
    (h : ∀ p ∈ reg, p.2 ≠ cid) : broadcastLoop ok reg cid = ([], reg) := by
  have h1 : (broadcastLoop ok reg cid).1 = [] := by
    rw [broadcastLoop_delivered]
    have : matching reg cid = [] := by
      rw [List.eq_nil_iff_forall_not_mem]
      intro a ha
      exact h (a, cid) ((matching_mem reg cid a).1 ha) rfl
    simp [this]
  have h2 : (broadcastLoop ok reg cid).2 = reg := by
    rw [broadcastLoop_registry]
    apply List.filter_eq_self.2
    intro p hp
    simp [h p hp]
  calc broadcastLoop ok reg cid
      = ((broadcastLoop ok reg cid).1, (broadcastLoop ok reg cid).2) := rfl
    _ = ([], reg) := by rw [h1, h2]

theorem purge_of_no_match (reg : Registry) (cid : String)
    (h : ∀ p ∈ reg, p.2 ≠ cid) : purge reg cid = reg := by
  rw [purge_eq_filter]
  apply List.filter_eq_self.2
  intro p hp
  simp [h p hp]

theorem mem_purge (reg : Registry) (cid : String) (p : Conn × String) :
    p ∈ purge reg cid ↔ p ∈ reg ∧ p.2 ≠ cid := by
  rw [purge_eq_filter]
  simp [List.mem_filter]

/-! ### Lemmas about the v1 store operations -/

theorem findOneChat_append_left (pre post : Store) (cid : String) (c : Chat)
    (hpre : ∀ d ∈ pre, d.chatId ≠ cid) (hc : c.chatId = cid) :
    findOneChat (pre ++ c :: post) cid = some c := by
  induction pre with
  | nil => simp [findOneChat, hc]
  | cons d rest ih =>
    have hd : d.chatId ≠ cid := hpre d (by simp)
    simp only [List.cons_append, findOneChat, hd, if_neg hd]
    exact ih fun e he => hpre e (by simp [he])

theorem updateFirst_append (f : Chat → Chat) (pre post : Store) (cid : String) (c : Chat)
    (hpre : ∀ d ∈ pre, d.chatId ≠ cid) (hc : c.chatId = cid) :
    updateFirst f (pre ++ c :: post) cid = pre ++ f c :: post := by
  induction pre with
  | nil => simp [updateFirst, hc]
  | cons d rest ih =>
    have hd : d.chatId ≠ cid := hpre d (by simp)
    simp only [List.cons_append, updateFirst, if_neg hd]
    exact congrArg (fun l => d :: l) (ih fun e he => hpre e (by simp [he]))

theorem findOneChat_updateFirst (f : Chat → Chat) (hf : ∀ c, (f c).chatId = c.chatId)
    (store : Store) (cid : String) :
    findOneChat (updateFirst f store cid) cid = (findOneChat store cid).map f := by
  induction store with
  | nil => rfl
  | cons c rest ih =>
    by_cases h : c.chatId = cid
    · have : (f c).chatId = cid := by rw [hf c, h]
      simp [updateFirst, findOneChat, h, this]
    · simp [updateFirst, findOneChat, h, ih]

theorem updateFirst_of_none (f : Chat → Chat) (store : Store) (cid : String)
    (h : findOneChat store cid = none) : updateFirst f store cid = store := by
  induction store with
  | nil => rfl
  | cons c rest ih =>
    by_cases hc : c.chatId = cid
    · simp [findOneChat, hc] at h
    · simp only [findOneChat, if_neg hc] at h
      simp [updateFirst, hc, ih h]

theorem findOneChat_append_new (store : Store) (cid : String) (c : Chat)
    (h : findOneChat store cid = none) (hc : c.chatId = cid) :
    findOneChat (store ++ [c]) cid = some c := by
  induction store with
  | nil => simp [findOneChat, hc]
  | cons d rest ih =>
    by_cases hd : d.chatId = cid
    · simp [findOneChat, hd] at h
    · simp only [findOneChat, if_neg hd] at h
      simp only [List.cons_append, findOneChat, if_neg hd]
      exact ih h

theorem closeChatStore_idem (store : Store) (cid : String) :
    closeChatStore (closeChatStore store cid) cid = closeChatStore store cid := by
  induction store with
  | nil => rfl
  | cons c rest ih =>
    by_cases h : c.chatId = cid
    · have h2 : (setEnded c).chatId = cid := h
      simp [closeChatStore, updateFirst, h, h2, setEnded]
    · simp only [closeChatStore, updateFirst, if_neg h] at ih ⊢
      rw [ih]

/-! ### Lemmas about the v2 broadcast loops -/

theorem V2.broadcastClients_spec (ok : Conn → Bool) (l : List (Conn × String)) :
    V2.broadcastClients ok l
      = ((l.filter (fun p => ok p.1)).map Prod.fst, l.filter (fun p => ok p.1)) := by
  induction l with
  | nil => rfl
  | cons q rest ih =>
    obtain ⟨conn, id⟩ := q
    by_cases hok : ok conn
    · simp [V2.broadcastClients, hok, List.filter_cons, ih]
    · simp [V2.broadcastClients, hok, List.filter_cons, ih]

theorem V2.broadcastConns_spec (ok : Conn → Bool) (l : List Conn) :
    V2.broadcastConns ok l = (l.filter ok, l.filter ok) := by
  induction l with
  | nil => rfl
  | cons conn rest ih =>
    by_cases hok : ok conn
    · simp [V2.broadcastConns, hok, List.filter_cons, ih]
    · simp [V2.broadcastConns, hok, List.filter_cons, ih]

theorem V2.closeChatStore_twice_eq (store : V2.Store) (cid : String) :
    V2.closeChatStore (V2.closeChatStore store cid) cid = V2.closeChatStore store cid := by
  induction store with
  | nil => rfl
  | cons d rest ih =>
    by_cases h : d.chatId = cid
    · have h2 : (V2.setClosed d).chatId = cid := h
      simp [V2.closeChatStore, V2.updateFirstDoc, h, h2, V2.setClosed]
    · simp only [V2.closeChatStore, V2.updateFirstDoc, if_neg h] at ih ⊢
      rw [ih]

/-! ### Claim theorems -/

/-- Claim C1, counterexample: in revision v2, a broadcast for chat chat1
is delivered to connection 2, which is registered under the different
chat chat2 and is not an administrator, so delivery is not restricted to
the connections registered under the chat together with the
administrators. -/
theorem C1_counterexample :
    2 ∈ (V2.broadcastMessage (fun _ => true)
          { clients := [(1, "chat1"), (2, "chat2")], adminClients := [] }
          { chatId := "chat1"
            sender := "alice@example.com"
            message := "hello"
            timestamp := 1
            status := none }).delivered ∧
    (2, "chat1") ∉
      ({ clients := [(1, "chat1"), (2, "chat2")], adminClients := [] } : V2.Registry).clients ∧
    2 ∉ ({ clients := [(1, "chat1"), (2, "chat2")], adminClients := [] } : V2.Registry).adminClients := by
  decide

/-- Claim C1, amended: in revision v1 a broadcast with every write
succeeding is delivered to exactly the connections registered under the
chat identifier (v1 has no administrator audience), while in revision v2
a broadcast is delivered to every participant connection regardless of
its chat together with every administrator connection. -/
theorem C1_broadcast_recipients (reg : Registry) (cid : String) (msg : ChatMessage)
    (reg2 : V2.Registry) (msg2 : V2.MessageDoc) :
    (broadcastMessage (fun _ => true) reg cid msg).delivered = matching reg cid ∧
    (V2.broadcastMessage (fun _ => true) reg2 msg2).delivered
      = reg2.clients.map Prod.fst ++ reg2.adminClients := by
  constructor
  · show (broadcastLoop (fun _ => true) reg cid).1 = matching reg cid
    rw [broadcastLoop_delivered]
    simp
  · show (V2.broadcastClients (fun _ => true) reg2.clients).1
        ++ (V2.broadcastConns (fun _ => true) reg2.adminClients).1
        = reg2.clients.map Prod.fst ++ reg2.adminClients
    rw [V2.broadcastClients_spec, V2.broadcastConns_spec]
    simp

/-- Claim C2, counterexample: in revision v2 the persisted status of chat
c1 is the terminal closed status, yet a handshake supplying c1 registers
the connection in the registry: the v2 handshake performs no status check
and no rejection at all. -/
theorem C2_counterexample :
    V2.lookupStatus
        (V2.closeChatStore
          [{ chatId := "c1"
             sender := "bob@example.com"
             message := "hi"
             timestamp := 0
             status := none }] ("c1")) ("c1") = some ("closed") ∧
    (V2.handleHandshake { clients := [], adminClients := [] } 7
        ("bob@example.com") ("c1")).clients = [(7, "c1")] := by
  decide

/-- Claim C2, amended (holds of revision v1): a v1 handshake naming a chat
whose stored status is ended is rejected: exactly one terminal system
notice is written, the handler returns at once closing the socket, the
store is left completely unchanged (so the status is not transitioned
back to active), and the connection is never registered. -/
theorem C2_ended_handshake_rejected (store : Store) (reg : Registry) (conn : Conn)
    (cid fresh email : String) (now : Nat) (c : Chat)
    (hne : cid ≠ "") (hfind : findOneChat store cid = some c)
    (hend : c.status = "ended") :
    (handleHandshake store reg conn cid fresh email now).registered = false ∧
    (handleHandshake store reg conn cid fresh email now).registry = reg ∧
    (handleHandshake store reg conn cid fresh email now).store = store ∧
    (handleHandshake store reg conn cid fresh email now).notices = [closedNotice now] ∧
    (handleHandshake store reg conn cid fresh email now).connClosed = true := by
  have hstat : lookupStatus store cid = "ended" := by
    simp [lookupStatus, hfind, hend]
  simp [handleHandshake, if_neg hne, hstat]

/-- Witness for the amended claim C2 at a concrete ended chat. -/
theorem C2_ended_handshake_rejected_witness :
    ("c1" : String) ≠ "" ∧
    findOneChat [setEnded (newChatDoc ("c1") ("a@b.c"))] ("c1")
      = some (setEnded (newChatDoc ("c1") ("a@b.c"))) ∧
    (setEnded (newChatDoc ("c1") ("a@b.c"))).status = "ended" ∧
    (handleHandshake [setEnded (newChatDoc ("c1") ("a@b.c"))] [] 5
        ("c1") ("u1") ("x@y.z") 3).registered = false :=
  ⟨by decide, by decide, by decide,
   (C2_ended_handshake_rejected [setEnded (newChatDoc ("c1") ("a@b.c"))] [] 5
      ("c1") ("u1") ("x@y.z") 3 (setEnded (newChatDoc ("c1") ("a@b.c")))
      (by decide) (by decide) (by decide)).1⟩

/-- Claim C3: a v1 handshake on a chat identifier whose stored status is
not ended performs a conditional create: the connection is registered;
when no document with the identifier exists, one is inserted with status
active and an empty message sequence; when a document already exists, the
store is left completely unchanged, every existing field included. -/
theorem C3_conditional_create (store : Store) (reg : Registry) (conn : Conn)
    (cid fresh email : String) (now : Nat)
    (hne : cid ≠ "") (hnotended : lookupStatus store cid ≠ "ended") :
    (handleHandshake store reg conn cid fresh email now).registered = true ∧
    (findOneChat store cid = none →
        (handleHandshake store reg conn cid fresh email now).store
          = store ++ [newChatDoc cid email] ∧
        findOneChat (handleHandshake store reg conn cid fresh email now).store cid
          = some (newChatDoc cid email) ∧
        (newChatDoc cid email).status = "active" ∧
        (newChatDoc cid email).messages = []) ∧
    (∀ c, findOneChat store cid = some c →
        (handleHandshake store reg conn cid fresh email now).store = store) := by
  refine ⟨?_, ?_, ?_⟩
  · simp [handleHandshake, if_neg hne, hnotended]
  · intro h
    have hstore : (handleHandshake store reg conn cid fresh email now).store
        = store ++ [newChatDoc cid email] := by
      simp [handleHandshake, if_neg hne, hnotended, ensureChat, h]
    refine ⟨hstore, ?_, rfl, rfl⟩
    rw [hstore]
    exact findOneChat_append_new store cid (newChatDoc cid email) h rfl
  · intro c h
    simp [handleHandshake, if_neg hne, hnotended, ensureChat, h]

/-- Witness for claim C3 at a concrete store: creation on a fresh
identifier and no-op on an existing one. -/
theorem C3_conditional_create_witness :
    ("c9" : String) ≠ "" ∧
    lookupStatus [newChatDoc ("c1") ("a@b.c")] ("c9") ≠ "ended" ∧
    (handleHandshake [newChatDoc ("c1") ("a@b.c")] [] 4 ("c9") ("u1")
        ("x@y.z") 2).registered = true :=
  ⟨by decide, by decide,
   (C3_conditional_create [newChatDoc ("c1") ("a@b.c")] [] 4 ("c9") ("u1")
      ("x@y.z") 2 (by decide) (by decide)).1⟩

/-- Claim C4: closing a chat is idempotent in revision v1: both calls
answer ok, the second call leaves the store and the registry exactly as
the first call left them, the first call sets the stored status to ended,
and the second call delivers the closure notice to no connection at all,
in particular to none of the connections purged by the first call.  The
v2 store update is idempotent as well. -/
theorem C4_close_idempotent (ok : Conn → Bool) (store : Store) (reg : Registry)
    (cid : String) (now now2 : Nat) (hne : cid ≠ "") :
    (closeChat ok store reg cid now).response = CloseResponse.ok ∧
    (closeChat ok (closeChat ok store reg cid now).store
        (closeChat ok store reg cid now).registry cid now2).response
      = CloseResponse.ok ∧
    (closeChat ok (closeChat ok store reg cid now).store
        (closeChat ok store reg cid now).registry cid now2).store
      = (closeChat ok store reg cid now).store ∧
    (closeChat ok (closeChat ok store reg cid now).store
        (closeChat ok store reg cid now).registry cid now2).registry
      = (closeChat ok store reg cid now).registry ∧
    (closeChat ok (closeChat ok store reg cid now).store
        (closeChat ok store reg cid now).registry cid now2).delivered = [] ∧
    (∀ c, findOneChat store cid = some c →
        findOneChat (closeChat ok store reg cid now).store cid = some (setEnded c)) ∧
    (∀ s2 : V2.Store, V2.closeChatStore (V2.closeChatStore s2 cid) cid
        = V2.closeChatStore s2 cid) := by
  have hnomatch : ∀ p ∈ purge (broadcastLoop ok reg cid).2 cid, ¬ p.2 = cid := by
    intro p hp
    exact ((mem_purge _ _ _).1 hp).2
  have hb2 : broadcastLoop ok (purge (broadcastLoop ok reg cid).2 cid) cid
      = ([], purge (broadcastLoop ok reg cid).2 cid) :=
    broadcastLoop_of_no_match ok _ cid hnomatch
  have hp2 : purge (purge (broadcastLoop ok reg cid).2 cid) cid
      = purge (broadcastLoop ok reg cid).2 cid :=
    purge_of_no_match _ cid hnomatch
  refine ⟨?_, ?_, ?_, ?_, ?_, ?_, ?_⟩
  · simp [closeChat, hne]
  · simp [closeChat, hne]
  · simp [closeChat, hne, hb2, hp2, closeChatStore_idem]
  · simp [closeChat, hne, hb2, hp2]
  · simp [closeChat, hne, hb2]
  · intro c hc
    simp only [closeChat, if_neg hne]
    rw [closeChatStore, findOneChat_updateFirst setEnded (fun _ => rfl), hc]
    rfl
  · intro s2
    exact V2.closeChatStore_twice_eq s2 cid

/-- Witness for claim C4 at a concrete chat with one registered
connection. -/
theorem C4_close_idempotent_witness :
    ("c1" : String) ≠ "" ∧
    (closeChat (fun _ => true)
        (closeChat (fun _ => true) [newChatDoc ("c1") ("a@b.c")] [(1, "c1")]
          ("c1") 4).store
        (closeChat (fun _ => true) [newChatDoc ("c1") ("a@b.c")] [(1, "c1")]
          ("c1") 4).registry ("c1") 9).delivered = [] :=
  ⟨by decide,
   (C4_close_idempotent (fun _ => true) [newChatDoc ("c1") ("a@b.c")] [(1, "c1")]
      ("c1") 4 9 (by decide)).2.2.2.2.1⟩

/-- Claim C5: handling an inbound message in revision v1 stamps it with
the server clock, appends it to the stored message sequence of the chat,
updates the lastMessage (and lastMessageTime) cache, inserts an active
document when none exists, and consults the status nowhere, so the append
happens even when the stored status is ended. -/
theorem C5_append_semantics (ok : Conn → Bool) (store : Store) (reg : Registry)
    (cid : String) (now : Nat) (msg : ChatMessage) :
    (handleInbound ok true store reg cid now msg).sent = { msg with timestamp := now } ∧
    (∀ c, findOneChat store cid = some c →
        findOneChat (handleInbound ok true store reg cid now msg).store cid
          = some { c with
              messages := c.messages ++ [{ msg with timestamp := now }]
              lastMessage := some { msg with timestamp := now }
              lastMessageTime := some now }) ∧
    (findOneChat store cid = none →
        findOneChat (handleInbound ok true store reg cid now msg).store cid
          = some { chatId := cid
                   userEmail := ""
                   messages := [{ msg with timestamp := now }]
                   lastMessage := some { msg with timestamp := now }
                   lastMessageTime := some now
                   status := "active" }) := by
  refine ⟨rfl, ?_, ?_⟩
  · intro c hc
    show findOneChat (saveMessage store cid { msg with timestamp := now }) cid = _
    rw [saveMessage, hc]
    rw [findOneChat_updateFirst (pushMessage { msg with timestamp := now })
        (fun _ => rfl), hc]
    rfl
  · intro h
    show findOneChat (saveMessage store cid { msg with timestamp := now }) cid = _
    rw [saveMessage, h]
    exact findOneChat_append_new store cid _ h rfl

/-- Witness for claim C5 on a store whose only chat is already ended: the
message is still appended. -/
theorem C5_append_semantics_witness :
    findOneChat [setEnded (newChatDoc ("c1") ("a@b.c"))] ("c1")
      = some (setEnded (newChatDoc ("c1") ("a@b.c"))) ∧
    findOneChat
        (handleInbound (fun _ => true) true [setEnded (newChatDoc ("c1") ("a@b.c"))]
          [] ("c1") 8 { sender := "a@b.c", message := "hello", timestamp := 0 }).store
        ("c1")
      = some { setEnded (newChatDoc ("c1") ("a@b.c")) with
          messages := [{ sender := "a@b.c", message := "hello", timestamp := 8 }]
          lastMessage := some { sender := "a@b.c", message := "hello", timestamp := 8 }
          lastMessageTime := some 8 } :=
  ⟨by decide,
   ((C5_append_semantics (fun _ => true) [setEnded (newChatDoc ("c1") ("a@b.c"))]
      [] ("c1") 8 { sender := "a@b.c", message := "hello", timestamp := 0 }).2.1
      (setEnded (newChatDoc ("c1") ("a@b.c"))) (by decide))⟩

/-- Claim C6: a persistence failure while handling an inbound message is
swallowed: the store is left unchanged, while the stamped message, the
connections it is delivered to, and the pruned registry are exactly those
of a run whose store write succeeds, so a message can reach live
connections without ever being durably recorded. -/
theorem C6_persistence_failure_swallowed (ok : Conn → Bool) (store : Store)
    (reg : Registry) (cid : String) (now : Nat) (msg : ChatMessage) :
    (handleInbound ok false store reg cid now msg).store = store ∧
    (handleInbound ok false store reg cid now msg).sent
      = (handleInbound ok true store reg cid now msg).sent ∧
    (handleInbound ok false store reg cid now msg).delivered
      = (handleInbound ok true store reg cid now msg).delivered ∧
    (handleInbound ok false store reg cid now msg).registry
      = (handleInbound ok true store reg cid now msg).registry :=
  ⟨rfl, rfl, rfl, rfl⟩

/-- Claim C7: when the write to a registered connection fails during a v1
broadcast, that connection is removed from the registry, every connection
whose own write does not fail survives, delivery still reaches every
registered connection of the chat whose write succeeds, and the failed
connection receives nothing in any subsequent broadcast over the pruned
registry. -/
theorem C7_dead_connection_pruning (ok : Conn → Bool) (reg : Registry)
    (cid : String) (msg : ChatMessage) (conn : Conn)
    (hnd : (reg.map Prod.fst).Nodup) (hmem : (conn, cid) ∈ reg)
    (hfail : ok conn = false) :
    conn ∉ (broadcastMessage ok reg cid msg).registry.map Prod.fst ∧
    (∀ p ∈ reg, (p.2 = cid → ok p.1 = true) →
        p ∈ (broadcastMessage ok reg cid msg).registry) ∧
    (broadcastMessage ok reg cid msg).delivered = (matching reg cid).filter ok ∧
    (∀ (ok2 : Conn → Bool) (cid2 : String) (msg2 : ChatMessage),
        conn ∉ (broadcastMessage ok2 (broadcastMessage ok reg cid msg).registry
            cid2 msg2).delivered) := by
  have key : ∀ p ∈ (broadcastLoop ok reg cid).2, p.1 ≠ conn := by
    intro p hp hpc
    rw [broadcastLoop_registry] at hp
    obtain ⟨hpin, hpred⟩ := List.mem_filter.1 hp
    have hpe : p = (conn, cid) :=
      List.inj_on_of_nodup_map hnd hpin hmem (by rw [hpc])
    subst hpe
    simp [hfail] at hpred
  refine ⟨?_, ?_, ?_, ?_⟩
  · show conn ∉ (broadcastLoop ok reg cid).2.map Prod.fst
    intro hin
    obtain ⟨p, hp, hpe⟩ := List.mem_map.1 hin
    exact key p hp hpe
  · intro p hp hpred
    show p ∈ (broadcastLoop ok reg cid).2
    rw [broadcastLoop_registry]
    refine List.mem_filter.2 ⟨hp, ?_⟩
    by_cases h : p.2 = cid
    · simp [h, hpred h]
    · simp [h]
  · exact broadcastLoop_delivered ok reg cid
  · intro ok2 cid2 msg2
    show conn ∉ (broadcastLoop ok2 (broadcastLoop ok reg cid).2 cid2).1
    intro hin
    rw [broadcastLoop_delivered] at hin
    have hm := (matching_mem _ cid2 conn).1 (List.mem_filter.1 hin).1
    exact key (conn, cid2) hm rfl

/-- Witness for claim C7: connection 2 fails, connection 1 still receives
the message and connection 2 is pruned. -/
theorem C7_dead_connection_pruning_witness :
    (([(1, "c"), (2, "c")] : Registry).map Prod.fst).Nodup ∧
    (2, "c") ∈ ([(1, "c"), (2, "c")] : Registry) ∧
    (fun n => decide (n ≠ 2)) 2 = false ∧
    2 ∉ (broadcastMessage (fun n => decide (n ≠ 2)) [(1, "c"), (2, "c")] ("c")
          (closedNotice 0)).registry.map Prod.fst :=
  ⟨by decide, by decide, by decide,
   (C7_dead_connection_pruning (fun n => decide (n ≠ 2)) [(1, "c"), (2, "c")]
      ("c") (closedNotice 0) 2 (by decide) (by decide) (by decide)).1⟩

/-- Claim C8: the persisted and broadcast timestamp is assigned by the
server at receipt: two inbound messages that differ only in their
client-supplied timestamp produce identical outcomes. -/
theorem C8_server_assigned_timestamp (ok : Conn → Bool) (persistOk : Bool)
    (store : Store) (reg : Registry) (cid : String) (now : Nat)
    (msg1 msg2 : ChatMessage)
    (hs : msg1.sender = msg2.sender) (hm : msg1.message = msg2.message) :
    handleInbound ok persistOk store reg cid now msg1
      = handleInbound ok persistOk store reg cid now msg2 := by
  obtain ⟨s1, m1, t1⟩ := msg1
  obtain ⟨s2, m2, t2⟩ := msg2
  have hs2 : s1 = s2 := hs
  have hm2 : m1 = m2 := hm
  subst hs2
  subst hm2
  rfl

/-- Witness for claim C8: the same payload with two different
client-supplied timestamps is handled identically. -/
theorem C8_server_assigned_timestamp_witness :
    ({ sender := "a@b.c", message := "hi", timestamp := 11 } : ChatMessage).sender
      = ({ sender := "a@b.c", message := "hi", timestamp := 55 } : ChatMessage).sender ∧
    handleInbound (fun _ => true) true [] [(1, "c1")] ("c1") 7
        { sender := "a@b.c", message := "hi", timestamp := 11 }
      = handleInbound (fun _ => true) true [] [(1, "c1")] ("c1") 7
        { sender := "a@b.c", message := "hi", timestamp := 55 } :=
  ⟨by decide,
   C8_server_assigned_timestamp (fun _ => true) true [] [(1, "c1")] ("c1") 7
     { sender := "a@b.c", message := "hi", timestamp := 11 }
     { sender := "a@b.c", message := "hi", timestamp := 55 } (by decide) (by decide)⟩

/-- Claim C9, counterexample: in revision v1 a history request for a chat
identifier with no stored document answers with the database-error
response, not with a synthesized system message. -/
theorem C9_counterexample :
    getChatHistory [] ("c1") = HistoryResult.dbError ∧
    isOkResult (getChatHistory [] ("c1")) = false := by
  decide

/-- Claim C9, amended: both revisions return the stored messages of an
existing chat in stored order; for an absent chat, revision v1 answers
with the database-error response while revision v2 synthesizes an initial
system message, inserts it into the store and returns it instead of an
error. -/
theorem C9_history_by_revision (store : Store) (cid : String) (c : Chat)
    (s2 : V2.Store) (now : Nat) (hne : cid ≠ "") :
    (findOneChat store cid = some c → getChatHistory store cid = .ok c.messages) ∧
    (findOneChat store cid = none → getChatHistory store cid = .dbError) ∧
    (V2.messagesFor s2 cid = [] →
        (V2.getChatHistory s2 cid now).result
          = .ok [V2.historySystemMessage cid now] ∧
        (V2.getChatHistory s2 cid now).store
          = s2 ++ [V2.historySystemMessage cid now]) ∧
    (∀ m ms, V2.messagesFor s2 cid = m :: ms →
        (V2.getChatHistory s2 cid now).result = .ok (m :: ms) ∧
        (V2.getChatHistory s2 cid now).store = s2) := by
  refine ⟨?_, ?_, ?_, ?_⟩
  · intro h
    simp [getChatHistory, hne, h]
  · intro h
    simp [getChatHistory, hne, h]
  · intro h
    constructor
    · simp [V2.getChatHistory, hne, h]
    · simp [V2.getChatHistory, hne, h]
  · intro m ms h
    constructor
    · simp [V2.getChatHistory, hne, h]
    · simp [V2.getChatHistory, hne, h]

/-- Witness for the amended claim C9: an existing chat is listed in
stored order, and the empty v2 store yields the synthesized message. -/
theorem C9_history_by_revision_witness :
    ("c1" : String) ≠ "" ∧
    findOneChat [newChatDoc ("c1") ("a@b.c")] ("c1") = some (newChatDoc ("c1") ("a@b.c")) ∧
    getChatHistory [newChatDoc ("c1") ("a@b.c")] ("c1")
      = HistoryResult.ok (newChatDoc ("c1") ("a@b.c")).messages :=
  ⟨by decide, by decide,
   (C9_history_by_revision [newChatDoc ("c1") ("a@b.c")] ("c1")
      (newChatDoc ("c1") ("a@b.c")) [] 3 (by decide)).1 (by decide)⟩

/-- Claim C10: the persisted history is append-only and close has no
other effect: on a store holding the chat, saving a message only appends
it at the end of that chat's message sequence and refreshes the
lastMessage / lastMessageTime cache, leaving every other document and
every prior message untouched, and closing only sets the status field of
that chat, leaving its messages, owner identity and cache, and every
other document, untouched. -/
theorem C10_append_only_frame (pre post : Store) (cid : String)
    (msg : ChatMessage) (c : Chat)
    (hpre : ∀ d ∈ pre, d.chatId ≠ cid) (hc : c.chatId = cid) :
    saveMessage (pre ++ c :: post) cid msg
      = pre ++ { c with
          messages := c.messages ++ [msg]
          lastMessage := some msg
          lastMessageTime := some msg.timestamp } :: post ∧
    closeChatStore (pre ++ c :: post) cid
      = pre ++ { c with status := "ended" } :: post := by
  have hfind : findOneChat (pre ++ c :: post) cid = some c :=
    findOneChat_append_left pre post cid c hpre hc
  constructor
  · rw [saveMessage, hfind]
    exact updateFirst_append (pushMessage msg) pre post cid c hpre hc
  · exact updateFirst_append setEnded pre post cid c hpre hc

/-- Witness for claim C10 on a two-document store. -/
theorem C10_append_only_frame_witness :
    (∀ d ∈ [newChatDoc ("c0") ("z@z.z")], d.chatId ≠ "c1") ∧
    (newChatDoc ("c1") ("a@b.c")).chatId = "c1" ∧
    closeChatStore ([newChatDoc ("c0") ("z@z.z")] ++ newChatDoc ("c1") ("a@b.c") :: [])
        ("c1")
      = [newChatDoc ("c0") ("z@z.z")]
        ++ { newChatDoc ("c1") ("a@b.c") with status := "ended" } :: [] :=
  ⟨by decide, by decide,
   (C10_append_only_frame [newChatDoc ("c0") ("z@z.z")] [] ("c1")
      (closedNotice 0) (newChatDoc ("c1") ("a@b.c")) (by decide) (by decide)).2⟩

end WsChats
